import Mathlib

/-!
Verification model of the shsu command-line tool (src/bin/shsu.mjs).

The tool synchronizes local Supabase edge functions and SQL migrations to a
remote host over ssh/rsync, restarts containers, and exposes the same
operations through a newline-delimited JSON-RPC responder ("mcp" mode).

The shallow embedding below translates the orchestration logic of
src/bin/shsu.mjs into pure Lean functions.  External effects are made
explicit:

* subprocess invocations (ssh / rsync / curl) become `Command` values
  recorded in an execution trace, with their outcomes supplied by an
  abstract `Executor`;
* the local filesystem is an abstract `FileSystem` (existence checks and
  directory listings);
* filesystem writes performed by the scaffold command become `FsAction`
  values;
* JavaScript truthiness of optional string configuration values is
  modelled by `truthy` (absent or empty string is falsy).

Shell-string rendering, colored console output and help text are rendering
glue and are not modelled; each `Command` constructor corresponds to one
subprocess template in the source.
-/

namespace Shsu

/-- Claim-level truthiness of an optional string, as JavaScript evaluates
`if (!x)` on a value that is either `undefined` or a string: `none` and
`some ""` are falsy. -/
def truthy : Option String → Bool
  | none => false
  | some s => !(s == "")

/-- JavaScript `a || b` on optional string values: the left operand when it
is truthy, otherwise the right operand. -/
def jsOr (a b : Option String) : Option String :=
  if truthy a then a else b

/-- JavaScript `a || b || d` where `d` is a string literal default
(used for the defaulted configuration fields in `loadConfig`). -/
def jsOrDefault (a b : Option String) (d : String) : String :=
  let v := jsOr a b
  if truthy v then v.getD "" else d

/-- Resolved configuration record, mirroring the object returned by
`loadConfig` in src/bin/shsu.mjs lines 26-34.  Fields that may be absent
are `Option String`; defaulted fields are plain strings. -/
structure Config where
  server : Option String
  remotePath : Option String
  localPath : String
  migrationsPath : String
  url : Option String
  edgeContainer : String
  dbContainer : String
  deriving DecidableEq

/-- One layer of raw configuration sources: either the `SHSU_*` environment
variables or the `"shsu"` key of package.json.  Every field is optional. -/
structure RawSettings where
  server : Option String := none
  remotePath : Option String := none
  localPath : Option String := none
  migrationsPath : Option String := none
  url : Option String := none
  edgeContainer : Option String := none
  dbContainer : Option String := none
  deriving DecidableEq

/-- Outcome of reading package.json in `loadConfig` lines 14-23: the file
may be missing, unparseable (the catch block ignores parse errors), or
parsed with an optional `"shsu"` key. -/
inductive PkgRead where
  | missing
  | malformed
  | parsed (shsu : Option RawSettings)
  deriving DecidableEq

/-- The `pkgConfig` value of `loadConfig`: `pkg.shsu || {}` with `{}` when
package.json is missing or malformed. -/
def pkgSettings : PkgRead → RawSettings
  | .missing => {}
  | .malformed => {}
  | .parsed none => {}
  | .parsed (some s) => s

/-- Built-in default for `localPath` (shsu.mjs line 29). -/
def defaultLocalPath : String := "./supabase/functions"

/-- Built-in default for `migrationsPath` (shsu.mjs line 30). -/
def defaultMigrationsPath : String := "./supabase/migrations"

/-- Embedding of `loadConfig` (shsu.mjs lines 11-35): environment variables
override package.json values, which override built-in defaults, using
JavaScript `||` at each step. -/
def loadConfig (env : RawSettings) (pkg : PkgRead) : Config :=
  let p := pkgSettings pkg
  { server := jsOr env.server p.server
    remotePath := jsOr env.remotePath p.remotePath
    localPath := jsOrDefault env.localPath p.localPath defaultLocalPath
    migrationsPath := jsOrDefault env.migrationsPath p.migrationsPath defaultMigrationsPath
    url := jsOr env.url p.url
    edgeContainer := jsOrDefault env.edgeContainer p.edgeContainer "edge"
    dbContainer := jsOrDefault env.dbContainer p.dbContainer "postgres" }

/-- Node `path.join(a, b)` as used on the relative paths of this tool.
Separator normalization performed by Node is irrelevant to the properties
proved here. -/
def joinPath (a b : String) : String := a ++ "/" ++ b

/-- A subprocess invocation.  Each constructor corresponds to one command
template of src/bin/shsu.mjs; the arguments are the configuration-derived
parts of the template.

* `rsync delete excludes src dst` — an `rsync -avz` transfer, with
  `--delete` when `delete` is true and one `--exclude=p` per pattern;
* `sshDockerQuery server filter` — `ssh server "docker ps -q --filter
  name=filter"` (container id lookup);
* `sshDockerRestart server filter` — `ssh server "docker restart $(docker
  ps -q --filter name=filter)"`;
* `sshListDir server path` — `ssh server "ls -1 path"`;
* `sshPsqlFile server container file` — `ssh server "docker exec -i
  container psql -U postgres -d postgres -f /tmp/shsu-migrations/file"`;
* `curlPost url name data` — `curl -s -X POST url/functions/v1/name -d
  data`. -/
inductive Command where
  | rsync (delete : Bool) (excludes : List String) (src dst : String)
  | sshDockerQuery (server filter : String)
  | sshDockerRestart (server filter : String)
  | sshListDir (server path : String)
  | sshPsqlFile (server container file : String)
  | curlPost (url name data : String)
  deriving DecidableEq

/-- Abstract local filesystem: `existsSync` and the two uses of
`readdirSync` (plain file listing, and directory-only listing with
`withFileTypes`). -/
structure FileSystem where
  pathExists : String → Bool
  readDir : String → List String
  readDirDirs : String → List String

/-- Abstract subprocess outcomes.  `runOk cmd` is whether a streaming
`run` invocation (stdio inherited, `spawn`) exits with code 0.
`captured cmd` is the trimmed output of a capturing `execSync` invocation,
`none` when the subprocess fails.  `failureMessage cmd` is the message of
the exception raised by a failing `execSync`. -/
structure Executor where
  runOk : Command → Bool
  captured : Command → Option String
  failureMessage : Command → String

/-- Result of `runSync` (shsu.mjs lines 82-88): the captured output, or
`null` when the subprocess fails. -/
def runSyncResult (e : Executor) (cmd : Command) : Option String :=
  e.captured cmd

/-- Result of `captureExec` in `cmdMcp` (shsu.mjs lines 455-461): the
captured output, or the exception message when the subprocess fails. -/
def captureExecResult (e : Executor) (cmd : Command) : String :=
  match e.captured cmd with
  | some out => out
  | none => e.failureMessage cmd

/-- A local filesystem write performed by the scaffold command. -/
inductive FsAction where
  | mkdirRecursive (path : String)
  | writeFile (path contents : String)
  deriving DecidableEq

/-- Terminal CLI failures: each constructor corresponds to one `error(...)`
call site (which prints and exits with code 1) or to a rejected streaming
command propagated to the top-level handler. -/
inductive CliError where
  | missingVar (name : String)
  | localNotFound (path : String)
  | commandFailed (cmd : Command)
  | containerNotFound (filter : String)
  | migrationFailed (file : String)
  | usageError
  | alreadyExists (name : String)
  deriving DecidableEq

/-- Embedding of `requireServer` (shsu.mjs lines 66-69), built from two
`requireVar` checks: the first falsy field among `server`, `remotePath`
yields a missing-variable error. -/
def requireServer (cfg : Config) : Option CliError :=
  if !truthy cfg.server then some (.missingVar "server")
  else if !truthy cfg.remotePath then some (.missingVar "remotePath")
  else none

/-- Lexicographic comparison of character lists by code point, the order
JavaScript `Array.prototype.sort()` applies to the migration file names
(shsu.mjs lines 215-217 and 631-633). -/
def charsLe : List Char → List Char → Bool
  | [], _ => true
  | _ :: _, [] => false
  | a :: as, b :: bs =>
    if a.toNat < b.toNat then true
    else if b.toNat < a.toNat then false
    else charsLe as bs

/-- Lexicographic comparison of strings by code point. -/
def strLe (a b : String) : Bool := charsLe a.data b.data

/-- The sort order of the migration file list, as a proposition. -/
def fileLe (a b : String) : Prop := strLe a b = true

instance : DecidableRel fileLe := fun a b =>
  inferInstanceAs (Decidable (strLe a b = true))

/-- Default JavaScript `.sort()` on a list of file names: a sort by the
lexicographic order `fileLe`. -/
def sortFiles (l : List String) : List String :=
  List.insertionSort fileLe l

-- ─────────────────────────────────────────────────────────────
-- CLI operations
-- ─────────────────────────────────────────────────────────────

/-- Restart step shared by both branches of `cmdDeploy` (shsu.mjs lines
123-132): unless `noRestart` is set, run the docker-restart command over
ssh; a non-zero exit becomes a failure. -/
def deployRestartStep (cfg : Config) (e : Executor) (server : String)
    (noRestart : Bool) (trace : List Command) :
    List Command × Except CliError Unit :=
  if !noRestart then
    let rc : Command := .sshDockerRestart server cfg.edgeContainer
    if e.runOk rc then (trace ++ [rc], .ok ())
    else (trace ++ [rc], .error (.commandFailed rc))
  else (trace, .ok ())

/-- Body of `cmdDeploy` after the `requireServer` check (shsu.mjs lines
101-132): without a function name, a full-tree mirror rsync with
`--delete` and the test/spec exclusions; with a function name, an
existence check on the local unit directory followed by an additive rsync
of that unit only.  The sync step streams, so a non-zero exit aborts the
operation before the restart step. -/
def cmdDeployBody (cfg : Config) (fs : FileSystem) (e : Executor)
    (funcName : Option String) (noRestart : Bool) :
    List Command × Except CliError Unit :=
  let server := cfg.server.getD ""
  let remotePath := cfg.remotePath.getD ""
  if !truthy funcName then
    let syncCmd : Command :=
      .rsync true ["*.test.ts", "*.spec.ts"] (cfg.localPath ++ "/")
        (server ++ ":" ++ remotePath ++ "/")
    if e.runOk syncCmd then deployRestartStep cfg e server noRestart [syncCmd]
    else ([syncCmd], .error (.commandFailed syncCmd))
  else
    let name := funcName.getD ""
    let funcPath := joinPath cfg.localPath name
    if !fs.pathExists funcPath then ([], .error (.localNotFound funcPath))
    else
      let syncCmd : Command :=
        .rsync false [] (funcPath ++ "/")
          (server ++ ":" ++ remotePath ++ "/" ++ name ++ "/")
      if e.runOk syncCmd then deployRestartStep cfg e server noRestart [syncCmd]
      else ([syncCmd], .error (.commandFailed syncCmd))

/-- Embedding of `cmdDeploy` (shsu.mjs lines 98-133). -/
def cmdDeploy (cfg : Config) (fs : FileSystem) (e : Executor)
    (funcName : Option String) (noRestart : Bool) :
    List Command × Except CliError Unit :=
  match requireServer cfg with
  | some err => ([], .error err)
  | none => cmdDeployBody cfg fs e funcName noRestart

/-- Embedding of `cmdRestart` (shsu.mjs lines 196-205). -/
def cmdRestart (cfg : Config) (e : Executor) :
    List Command × Except CliError Unit :=
  match requireServer cfg with
  | some err => ([], .error err)
  | none =>
    let rc : Command := .sshDockerRestart (cfg.server.getD "") cfg.edgeContainer
    if e.runOk rc then ([rc], .ok ()) else ([rc], .error (.commandFailed rc))

/-- Embedding of `cmdList` (shsu.mjs lines 161-177): a capturing remote
`ls` (whose failure yields no remote names rather than an error) and a
local directory listing guarded by an existence check. -/
def cmdList (cfg : Config) (fs : FileSystem) (e : Executor) :
    List Command × Except CliError Unit :=
  match requireServer cfg with
  | some err => ([], .error err)
  | none =>
    let lc : Command := .sshListDir (cfg.server.getD "") (cfg.remotePath.getD "")
    let _remote := runSyncResult e lc
    let _localNames :=
      if fs.pathExists cfg.localPath then fs.readDirDirs cfg.localPath else []
    ([lc], .ok ())

/-- JavaScript `f.endsWith(".sql")`: a suffix test on the characters. -/
def endsWithSql (f : String) : Bool := ".sql".data.isSuffixOf f.data

/-- Migration file selection of `cmdMigrate` (shsu.mjs lines 215-217):
`readdirSync(migrationsPath).filter(f => f.endsWith(".sql")).sort()`. -/
def cliMigrationFiles (cfg : Config) (fs : FileSystem) : List String :=
  sortFiles ((fs.readDir cfg.migrationsPath).filter (fun f => endsWithSql f))

/-- Staging rsync of `cmdMigrate` (shsu.mjs lines 229-233): a mirror
transfer of the migrations directory to the fixed remote staging path. -/
def cliMigrationStage (cfg : Config) (server : String) : Command :=
  .rsync true [] (cfg.migrationsPath ++ "/") (server ++ ":/tmp/shsu-migrations/")

/-- Database container lookup of `cmdMigrate` (shsu.mjs line 236). -/
def cliDbQuery (cfg : Config) (server : String) : Command :=
  .sshDockerQuery server cfg.dbContainer

/-- Migration loop of `cmdMigrate` (shsu.mjs lines 242-253): each file is
executed in order via a streaming ssh/psql command; the catch block around
a failing file calls `error(...)`, which exits the process, so no further
file is attempted. -/
def runMigrationsCli (e : Executor) (server container : String) :
    List String → List Command × Except CliError Unit
  | [] => ([], .ok ())
  | m :: rest =>
    let cmd : Command := .sshPsqlFile server container m
    if e.runOk cmd then
      let r := runMigrationsCli e server container rest
      (cmd :: r.1, r.2)
    else ([cmd], .error (.migrationFailed m))

/-- Body of `cmdMigrate` after the `requireServer` check (shsu.mjs lines
210-255): directory existence check, file selection and sort, empty-list
no-op, staging rsync, capturing container lookup (`null` or empty output
is a terminal error naming the filter), then the ordered migration loop. -/
def cmdMigrateBody (cfg : Config) (fs : FileSystem) (e : Executor) :
    List Command × Except CliError Unit :=
  if !fs.pathExists cfg.migrationsPath then
    ([], .error (.localNotFound cfg.migrationsPath))
  else
    let migrations := cliMigrationFiles cfg fs
    if migrations.isEmpty then ([], .ok ())
    else
      let server := cfg.server.getD ""
      let stage := cliMigrationStage cfg server
      if e.runOk stage then
        let q := cliDbQuery cfg server
        let dbOpt := runSyncResult e q
        if !truthy dbOpt then ([stage, q], .error (.containerNotFound cfg.dbContainer))
        else
          let r := runMigrationsCli e server (dbOpt.getD "") migrations
          (stage :: q :: r.1, r.2)
      else ([stage], .error (.commandFailed stage))

/-- Embedding of `cmdMigrate` (shsu.mjs lines 207-256). -/
def cmdMigrate (cfg : Config) (fs : FileSystem) (e : Executor) :
    List Command × Except CliError Unit :=
  match requireServer cfg with
  | some err => ([], .error err)
  | none => cmdMigrateBody cfg fs e

/-- Starter file written by `cmdNew` (shsu.mjs lines 269-287). -/
def starterTemplateCli : String :=
  "Deno.serve(async (req) => \x7b\n  try \x7b\n    const \x7b name \x7d = await req.json()\n    \n    return new Response(\n      JSON.stringify(\x7b message: `Hello $\x7bname\x7d!` \x7d),\n      \x7b headers: \x7b \"Content-Type\": \"application/json\" \x7d \x7d\n    )\n  \x7d catch (error) \x7b\n    return new Response(\n      JSON.stringify(\x7b error: error.message \x7d),\n      \x7b status: 400, headers: \x7b \"Content-Type\": \"application/json\" \x7d \x7d\n    )\n  \x7d\n\x7d)\n"

/-- Embedding of `cmdNew` (shsu.mjs lines 258-290): usage check, existence
check on the unit directory (an existing unit is a terminal error with no
writes), then a recursive mkdir and the starter file write.  The first
result component is the list of filesystem writes, the second the list of
subprocess invocations (always empty: the command is purely local). -/
def cmdNew (cfg : Config) (fs : FileSystem) (funcName : Option String) :
    List FsAction × List Command × Except CliError Unit :=
  if !truthy funcName then ([], [], .error .usageError)
  else
    let name := funcName.getD ""
    let funcPath := joinPath cfg.localPath name
    if fs.pathExists funcPath then ([], [], .error (.alreadyExists name))
    else
      ([.mkdirRecursive funcPath,
        .writeFile (joinPath funcPath "index.ts") starterTemplateCli],
       [], .ok ())

-- ─────────────────────────────────────────────────────────────
-- MCP tool handlers (cmdMcp, shsu.mjs lines 375-806)
-- ─────────────────────────────────────────────────────────────

/-- Loosely typed argument object passed to a tool call.  Absent
properties are `none`; `noRestart` mirrors `args.noRestart || false`. -/
structure ToolArgs where
  name : Option String := none
  data : Option String := none
  noRestart : Option Bool := none
  deriving DecidableEq

/-- Outcome of one tool call.  Every constructor corresponds to exactly
one `return` site of `handleTool` (shsu.mjs lines 464-759); the static
explanation and remediation text of each message is rendering and is
abstracted to the constructor, with the dynamic parts kept as arguments.
None of these outcomes is a protocol-level error: each is rendered as a
successful JSON-RPC response whose payload is text (`unknownTool` also
sets the `isError` flag). -/
inductive ToolOutcome where
  | missingConfig (fields : List String)
  | functionNotFound (path : String)
  | nameRequired (tool : String)
  | deployed (funcName : Option String) (noRestart : Bool) (output : String)
  | listed (remote localNames : String)
  | invoked (output : String)
  | restarted (output : String)
  | alreadyExists (name : String)
  | created (path : String)
  | configShown
  | migrationsFolderMissing (path : String)
  | noMigrationFiles (path : String)
  | dbContainerNotFound (filter : String)
  | migrated (output : String)
  | docsShown
  | unknownTool (name : String)
  deriving DecidableEq

/-- Restart step of the `deploy` tool (shsu.mjs lines 497-499): unless
`noRestart` is set, the docker-restart command is run with `captureExec`,
whose result is appended to the output whether or not the preceding rsync
succeeded. -/
def mcpDeployRestart (cfg : Config) (e : Executor) (server : String)
    (noRestart : Bool) (trace : List Command) (output : String)
    (funcName : Option String) : List Command × ToolOutcome :=
  if !noRestart then
    let rc : Command := .sshDockerRestart server cfg.edgeContainer
    (trace ++ [rc], .deployed funcName noRestart
      (output ++ "\n" ++ captureExecResult e rc))
  else (trace, .deployed funcName noRestart output)

/-- The `deploy` tool (shsu.mjs lines 466-502): config check on `server`
and `remotePath`, then the same two sync shapes as `cmdDeploy`, but run
with `captureExec`, which swallows subprocess failures and returns their
message as output. -/
def mcpDeploy (cfg : Config) (fs : FileSystem) (e : Executor)
    (args : ToolArgs) : List Command × ToolOutcome :=
  if !truthy cfg.server || !truthy cfg.remotePath then
    ([], .missingConfig ["server", "remotePath"])
  else
    let server := cfg.server.getD ""
    let remotePath := cfg.remotePath.getD ""
    let funcName := args.name
    let noRestart := args.noRestart.getD false
    if !truthy funcName then
      let syncCmd : Command :=
        .rsync true ["*.test.ts", "*.spec.ts"] (cfg.localPath ++ "/")
          (server ++ ":" ++ remotePath ++ "/")
      mcpDeployRestart cfg e server noRestart [syncCmd]
        (captureExecResult e syncCmd) none
    else
      let name := funcName.getD ""
      let funcPath := joinPath cfg.localPath name
      if !fs.pathExists funcPath then ([], .functionNotFound funcPath)
      else
        let syncCmd : Command :=
          .rsync false [] (funcPath ++ "/")
            (server ++ ":" ++ remotePath ++ "/" ++ name ++ "/")
        mcpDeployRestart cfg e server noRestart [syncCmd]
          (captureExecResult e syncCmd) (some name)

/-- The `list` tool (shsu.mjs lines 504-528). -/
def mcpList (cfg : Config) (fs : FileSystem) (e : Executor) :
    List Command × ToolOutcome :=
  if !truthy cfg.server || !truthy cfg.remotePath then
    ([], .missingConfig ["server", "remotePath"])
  else
    let lc : Command := .sshListDir (cfg.server.getD "") (cfg.remotePath.getD "")
    let remote := captureExecResult e lc
    let localNames :=
      if fs.pathExists cfg.localPath then fs.readDirDirs cfg.localPath else []
    ([lc], .listed remote (String.intercalate "\n" localNames))

/-- The `invoke` tool (shsu.mjs lines 530-549). -/
def mcpInvoke (cfg : Config) (e : Executor) (args : ToolArgs) :
    List Command × ToolOutcome :=
  if !truthy cfg.url then ([], .missingConfig ["url"])
  else if !truthy args.name then ([], .nameRequired "invoke")
  else
    let data := if truthy args.data then args.data.getD "" else "\x7b\x7d"
    let cmd : Command := .curlPost (cfg.url.getD "") (args.name.getD "") data
    ([cmd], .invoked (captureExecResult e cmd))

/-- The `restart` tool (shsu.mjs lines 551-564): note that only `server`
is checked, not `remotePath`. -/
def mcpRestart (cfg : Config) (e : Executor) : List Command × ToolOutcome :=
  if !truthy cfg.server then ([], .missingConfig ["server"])
  else
    let rc : Command := .sshDockerRestart (cfg.server.getD "") cfg.edgeContainer
    ([rc], .restarted (captureExecResult e rc))

/-- Starter file written by the `new` tool (shsu.mjs lines 579-597); it
differs from the CLI starter only in one whitespace-only line. -/
def starterTemplateMcp : String :=
  "Deno.serve(async (req) => \x7b\n  try \x7b\n    const \x7b name \x7d = await req.json()\n\n    return new Response(\n      JSON.stringify(\x7b message: `Hello $\x7bname\x7d!` \x7d),\n      \x7b headers: \x7b \"Content-Type\": \"application/json\" \x7d \x7d\n    )\n  \x7d catch (error) \x7b\n    return new Response(\n      JSON.stringify(\x7b error: error.message \x7d),\n      \x7b status: 400, headers: \x7b \"Content-Type\": \"application/json\" \x7d \x7d\n    )\n  \x7d\n\x7d)\n"

/-- The `new` tool (shsu.mjs lines 566-599). -/
def mcpNew (cfg : Config) (fs : FileSystem) (args : ToolArgs) :
    List FsAction × List Command × ToolOutcome :=
  if !truthy args.name then ([], [], .nameRequired "new")
  else
    let name := args.name.getD ""
    let funcPath := joinPath cfg.localPath name
    if fs.pathExists funcPath then ([], [], .alreadyExists name)
    else
      ([.mkdirRecursive funcPath,
        .writeFile (joinPath funcPath "index.ts") starterTemplateMcp],
       [], .created funcPath)

/-- Migration file selection of the `migrate` tool (shsu.mjs lines
631-633), textually identical to the selection in `cmdMigrate`. -/
def mcpMigrationFiles (cfg : Config) (fs : FileSystem) : List String :=
  sortFiles ((fs.readDir cfg.migrationsPath).filter (fun f => endsWithSql f))

/-- Staging rsync of the `migrate` tool (shsu.mjs line 644). -/
def mcpMigrationStage (cfg : Config) (server : String) : Command :=
  .rsync true [] (cfg.migrationsPath ++ "/") (server ++ ":/tmp/shsu-migrations/")

/-- Database container lookup of the `migrate` tool (shsu.mjs line 646). -/
def mcpDbQuery (cfg : Config) (server : String) : Command :=
  .sshDockerQuery server cfg.dbContainer

/-- Migration loop of the `migrate` tool (shsu.mjs lines 661-664): every
file is executed with `captureExec`, which swallows failures, so the loop
always continues through all remaining files, recording output per file. -/
def runMigrationsMcp (e : Executor) (server container : String) :
    List String → List Command × String
  | [] => ([], "")
  | m :: rest =>
    let cmd : Command := .sshPsqlFile server container m
    let out := "\nRunning " ++ m ++ "...\n" ++ captureExecResult e cmd ++ "\n"
    let r := runMigrationsMcp e server container rest
    (cmd :: r.1, out ++ r.2)

/-- The `migrate` tool (shsu.mjs lines 610-667): note that only `server`
is checked, not `remotePath`, and that the container lookup uses
`captureExec`, so its falsy branch is taken only on empty output. -/
def mcpMigrate (cfg : Config) (fs : FileSystem) (e : Executor) :
    List Command × ToolOutcome :=
  if !truthy cfg.server then ([], .missingConfig ["server"])
  else if !fs.pathExists cfg.migrationsPath then
    ([], .migrationsFolderMissing cfg.migrationsPath)
  else
    let migrations := mcpMigrationFiles cfg fs
    if migrations.isEmpty then ([], .noMigrationFiles cfg.migrationsPath)
    else
      let server := cfg.server.getD ""
      let stage := mcpMigrationStage cfg server
      let stageOut := captureExecResult e stage
      let q := mcpDbQuery cfg server
      let db := captureExecResult e q
      if db == "" then ([stage, q], .dbContainerNotFound cfg.dbContainer)
      else
        let r := runMigrationsMcp e server db migrations
        (stage :: q :: r.1,
         .migrated (stageOut ++ "\n" ++ r.2 ++ "\nAll migrations applied."))

/-- Dispatch of `handleTool` (shsu.mjs lines 464-759) by tool name.  The
first component is the list of filesystem writes (only the `new` tool
writes), the second the subprocess trace, the third the tool outcome. -/
def handleTool (cfg : Config) (fs : FileSystem) (e : Executor)
    (name : String) (args : ToolArgs) :
    List FsAction × List Command × ToolOutcome :=
  if name == "deploy" then
    let r := mcpDeploy cfg fs e args; ([], r.1, r.2)
  else if name == "list" then
    let r := mcpList cfg fs e; ([], r.1, r.2)
  else if name == "invoke" then
    let r := mcpInvoke cfg e args; ([], r.1, r.2)
  else if name == "restart" then
    let r := mcpRestart cfg e; ([], r.1, r.2)
  else if name == "new" then mcpNew cfg fs args
  else if name == "config" then ([], [], .configShown)
  else if name == "migrate" then
    let r := mcpMigrate cfg fs e; ([], r.1, r.2)
  else if name == "docs" then ([], [], .docsShown)
  else ([], [], .unknownTool name)

-- ─────────────────────────────────────────────────────────────
-- JSON-RPC message loop (cmdMcp, shsu.mjs lines 762-805)
-- ─────────────────────────────────────────────────────────────

/-- Parameters of a `tools/call` request. -/
structure RpcCallParams where
  name : String
  arguments : Option ToolArgs := none
  deriving DecidableEq

/-- A parsed JSON-RPC message: an optional `id` (requests without an `id`
are notifications), a method name, and optional call parameters. -/
structure RpcMessage where
  id : Option Int := none
  method : String
  params : Option RpcCallParams := none
  deriving DecidableEq

/-- Result payload of a successful JSON-RPC response (`respond`). -/
inductive RpcResult where
  | initOk
  | toolCatalog (names : List String)
  | toolReply (outcome : ToolOutcome)
  | callFailure
  deriving DecidableEq

/-- One line written to standard output by the responder: `respond`
(shsu.mjs lines 444-447) or `respondError` (lines 449-452). -/
inductive RpcOutput where
  | response (id : Option Int) (result : RpcResult)
  | errorResponse (id : Option Int) (code : Int) (message : String)
  deriving DecidableEq

/-- Names of the tool catalog (shsu.mjs lines 376-436), in declaration
order. -/
def toolNames : List String :=
  ["deploy", "list", "invoke", "restart", "new", "config", "migrate", "docs"]

/-- Dispatch of one parsed message (the `switch (method)` at shsu.mjs
lines 774-804).  `notifications/initialized` emits nothing; an unknown
method is answered with a protocol error only when the request carried an
`id`.  A `tools/call` without parameters raises reading `params.name`, and
the surrounding catch responds with an error-flagged text payload
(`callFailure`). -/
def handleMessage (cfg : Config) (fs : FileSystem) (e : Executor)
    (msg : RpcMessage) : List FsAction × List Command × List RpcOutput :=
  if msg.method == "initialize" then
    ([], [], [.response msg.id .initOk])
  else if msg.method == "notifications/initialized" then ([], [], [])
  else if msg.method == "tools/list" then
    ([], [], [.response msg.id (.toolCatalog toolNames)])
  else if msg.method == "tools/call" then
    match msg.params with
    | none => ([], [], [.response msg.id .callFailure])
    | some p =>
      let r := handleTool cfg fs e p.name (p.arguments.getD {})
      (r.1, r.2.1, [.response msg.id (.toolReply r.2.2)])
  else if msg.id.isSome then
    ([], [], [.errorResponse msg.id (-32601) ("Method not found: " ++ msg.method)])
  else ([], [], [])

/-- The message loop (shsu.mjs lines 764-805): each input line is parsed;
a line that fails to parse is skipped (`catch ... continue`) and the loop
proceeds with the next line.  `none` stands for an unparseable line. -/
def processLines (cfg : Config) (fs : FileSystem) (e : Executor) :
    List (Option RpcMessage) → List FsAction × List Command × List RpcOutput
  | [] => ([], [], [])
  | none :: rest => processLines cfg fs e rest
  | some msg :: rest =>
    let h := handleMessage cfg fs e msg
    let r := processLines cfg fs e rest
    (h.1 ++ r.1, h.2.1 ++ r.2.1, h.2.2 ++ r.2.2)

-- ─────────────────────────────────────────────────────────────
-- Projections of execution traces used by the theorems
-- ─────────────────────────────────────────────────────────────

/-- Files executed against the database, in trace order. -/
def executedSqlFiles (trace : List Command) : List String :=
  trace.filterMap fun cmd =>
    match cmd with
    | .sshPsqlFile _ _ f => some f
    | _ => none

/-- Whether a command is the docker-restart invocation. -/
def isRestartCommand : Command → Bool
  | .sshDockerRestart _ _ => true
  | _ => false

/-- Whether a command is an rsync transfer requesting deletion of remote
entries absent from the source. -/
def rsyncDeletes : Command → Bool
  | .rsync d _ _ _ => d
  | _ => false

/-- The rsync transfers of a trace, in order. -/
def rsyncsOf (trace : List Command) : List Command :=
  trace.filter fun cmd =>
    match cmd with
    | .rsync _ _ _ _ => true
    | _ => false

/-- Whether a CLI result failed on a missing configuration field before
any subprocess ran. -/
def cliConfigMissing (r : List Command × Except CliError Unit) : Bool :=
  r.1.isEmpty &&
    match r.2 with
    | .error (.missingVar _) => true
    | _ => false

/-- Whether a tool result failed on missing configuration before any
subprocess ran. -/
def mcpConfigMissing (r : List Command × ToolOutcome) : Bool :=
  r.1.isEmpty &&
    match r.2 with
    | .missingConfig _ => true
    | _ => false

/-- Whether a trace contains no docker-restart invocation. -/
def restartFree (trace : List Command) : Bool :=
  trace.all fun cmd => !isRestartCommand cmd

-- ─────────────────────────────────────────────────────────────
-- The sort order is total and transitive
-- ─────────────────────────────────────────────────────────────

theorem charsLe_total : ∀ as bs : List Char, charsLe as bs = true ∨ charsLe bs as = true := by
  intro as
  induction as with
  | nil => intro bs; left; rfl
  | cons a as ih =>
    intro bs
    cases bs with
    | nil => right; rfl
    | cons b bs =>
      simp only [charsLe]
      rcases Nat.lt_trichotomy a.toNat b.toNat with h | h | h
      · left; simp [h]
      · have h1 : ¬ a.toNat < b.toNat := by omega
        have h2 : ¬ b.toNat < a.toNat := by omega
        simpa [h1, h2] using ih bs
      · right; simp [h]

theorem charsLe_trans : ∀ as bs cs : List Char,
    charsLe as bs = true → charsLe bs cs = true → charsLe as cs = true := by
  intro as
  induction as with
  | nil => intro bs cs _ _; rfl
  | cons a as ih =>
    intro bs cs hab hbc
    cases bs with
    | nil => simp [charsLe] at hab
    | cons b bs =>
      cases cs with
      | nil => simp [charsLe] at hbc
      | cons c cs =>
        simp only [charsLe] at hab hbc ⊢
        split_ifs at hab hbc ⊢ with h1 h2 h3 h4 h5 h6 <;>
          first
            | rfl
            | omega
            | exact hab
            | exact hbc
            | exact ih bs cs hab hbc

instance : IsTotal String fileLe :=
  ⟨fun a b => charsLe_total a.data b.data⟩

instance : IsTrans String fileLe :=
  ⟨fun a b c => charsLe_trans a.data b.data c.data⟩

theorem sortFiles_sorted (l : List String) : List.Sorted fileLe (sortFiles l) :=
  List.sorted_insertionSort fileLe l

theorem sortFiles_perm (l : List String) : List.Perm (sortFiles l) l :=
  List.perm_insertionSort fileLe l

-- ─────────────────────────────────────────────────────────────
-- Concrete fixtures used by witnesses and counterexamples
-- ─────────────────────────────────────────────────────────────

/-- A fully configured record (server and remotePath present, defaults
elsewhere). -/
def cfgW : Config :=
  ⟨some "root@h", some "/srv/fn", "./supabase/functions",
   "./supabase/migrations", none, "edge", "postgres"⟩

/-- A configuration with `server` absent. -/
def cfgNoServer : Config :=
  ⟨none, some "/srv/fn", "./supabase/functions",
   "./supabase/migrations", none, "edge", "postgres"⟩

/-- A configuration with `remotePath` absent. -/
def cfgNoRemote : Config :=
  ⟨some "root@h", none, "./supabase/functions",
   "./supabase/migrations", none, "edge", "postgres"⟩

/-- A filesystem on which every path exists and the migrations directory
holds two SQL files (listed out of order) and one unrelated file. -/
def fsW : FileSystem :=
  ⟨fun _ => true, fun _ => ["002_b.sql", "001_a.sql", "notes.txt"],
   fun _ => ["hello-world"]⟩

/-- An executor on which every subprocess succeeds with output "cid". -/
def eW : Executor := ⟨fun _ => true, fun _ => some "cid", fun _ => "failmsg"⟩

/-- An executor on which every subprocess fails. -/
def eFail : Executor :=
  ⟨fun _ => false, fun _ => none, fun _ => "Command failed"⟩

-- ─────────────────────────────────────────────────────────────
-- C6 — configuration resolution precedence and totality
-- ─────────────────────────────────────────────────────────────

/-- Precedence contract for a configuration field without a built-in
default: the environment value when set (non-empty), otherwise whatever
the settings document holds. -/
def resolvesOpt (envv pkgv result : Option String) : Prop :=
  (truthy envv = true → result = envv) ∧
  (truthy envv = false → result = pkgv)

/-- Precedence contract for a configuration field with a built-in default
`d`: the environment value when set, otherwise the settings value when
set, otherwise `d`. -/
def resolvesStr (envv pkgv : Option String) (d : String) (result : String) : Prop :=
  (truthy envv = true → some result = envv) ∧
  (truthy envv = false → truthy pkgv = true → some result = pkgv) ∧
  (truthy envv = false → truthy pkgv = false → result = d)

theorem jsOr_resolves (a b : Option String) : resolvesOpt a b (jsOr a b) := by
  constructor <;> intro h <;> simp [jsOr, h]

theorem jsOrDefault_resolves (a b : Option String) (d : String) :
    resolvesStr a b d (jsOrDefault a b d) := by
  refine ⟨?_, ?_, ?_⟩
  · intro h
    cases a with
    | none => simp [truthy] at h
    | some s =>
      have hs : (s == "") = false := by simpa [truthy] using h
      simp [jsOrDefault, jsOr, truthy, hs]
  · intro he hp
    cases b with
    | none => simp [truthy] at hp
    | some t =>
      have ht : (t == "") = false := by simpa [truthy] using hp
      have hj : jsOr a (some t) = some t := by simp [jsOr, he]
      simp [jsOrDefault, hj, truthy, ht]
  · intro he hp
    simp [jsOrDefault, jsOr, he, hp]

/-- Claim C6: every configuration field resolves with precedence
environment override, then project settings, then built-in default
(./supabase/functions, ./supabase/migrations, edge, postgres for the
defaulted fields), and resolution never fails: a malformed settings
document resolves exactly like a missing one. -/
theorem c6_loadConfig_precedence (env : RawSettings) (pr : PkgRead) :
    resolvesOpt env.server (pkgSettings pr).server (loadConfig env pr).server ∧
    resolvesOpt env.remotePath (pkgSettings pr).remotePath (loadConfig env pr).remotePath ∧
    resolvesOpt env.url (pkgSettings pr).url (loadConfig env pr).url ∧
    resolvesStr env.localPath (pkgSettings pr).localPath defaultLocalPath
      (loadConfig env pr).localPath ∧
    resolvesStr env.migrationsPath (pkgSettings pr).migrationsPath defaultMigrationsPath
      (loadConfig env pr).migrationsPath ∧
    resolvesStr env.edgeContainer (pkgSettings pr).edgeContainer "edge"
      (loadConfig env pr).edgeContainer ∧
    resolvesStr env.dbContainer (pkgSettings pr).dbContainer "postgres"
      (loadConfig env pr).dbContainer ∧
    loadConfig env .malformed = loadConfig env .missing :=
  ⟨jsOr_resolves _ _, jsOr_resolves _ _, jsOr_resolves _ _,
   jsOrDefault_resolves _ _ _, jsOrDefault_resolves _ _ _,
   jsOrDefault_resolves _ _ _, jsOrDefault_resolves _ _ _, rfl⟩

/-- Environment layer for the C6 witness: `server` set, `localPath` set
to the empty string (falsy, hence not an override). -/
def envW : RawSettings := { server := some "envhost", localPath := some "" }

/-- Settings layer for the C6 witness. -/
def pkgW : RawSettings :=
  { server := some "pkghost", remotePath := some "/srv/fn", localPath := some "./fns" }

/-- Witness for C6 at a concrete environment and settings document. -/
theorem c6_loadConfig_precedence_witness :
    (loadConfig envW (.parsed (some pkgW))).server = some "envhost" ∧
    (loadConfig envW (.parsed (some pkgW))).remotePath = some "/srv/fn" ∧
    (loadConfig envW (.parsed (some pkgW))).localPath = "./fns" ∧
    (loadConfig envW (.parsed (some pkgW))).dbContainer = "postgres" ∧
    loadConfig envW .malformed = loadConfig envW .missing := by
  have h := c6_loadConfig_precedence envW (.parsed (some pkgW))
  refine ⟨(h.1.1 rfl).trans rfl, (h.2.1.2 rfl).trans rfl, ?_, ?_,
    h.2.2.2.2.2.2.2⟩
  · exact Option.some.inj (h.2.2.2.1.2.1 rfl rfl)
  · exact h.2.2.2.2.2.2.1.2.2 rfl rfl

-- ─────────────────────────────────────────────────────────────
-- C10 — unparseable input lines are skipped
-- ─────────────────────────────────────────────────────────────

/-- Claim C10: an input line that does not parse as JSON produces no
output, does not terminate the responder, and the remaining lines are
processed exactly as if the malformed line had never been received: the
filesystem writes, the subprocess trace and the emitted responses of the
whole run are unchanged. -/
theorem c10_unparseable_line_skipped (cfg : Config) (fs : FileSystem)
    (e : Executor) (xs ys : List (Option RpcMessage)) :
    processLines cfg fs e (xs ++ none :: ys) = processLines cfg fs e (xs ++ ys) := by
  induction xs with
  | nil => rfl
  | cons x xs ih =>
    cases x with
    | none => simpa [processLines] using ih
    | some m => simp [processLines, ih]

-- ─────────────────────────────────────────────────────────────
-- C8 — RPC dispatch contract
-- ─────────────────────────────────────────────────────────────

/-- Claim C8: a `tools/list` request with id 1 is answered by exactly one
response with id 1 carrying exactly the eight documented tool names; a
`notifications/initialized` message emits no output line; an unknown
method gets a method-not-found error response exactly when the request
carried an id, and is silently ignored otherwise. -/
theorem c8_rpc_dispatch (cfg : Config) (fs : FileSystem) (e : Executor)
    (idv : Option Int) (m : String) (p : Option RpcCallParams)
    (hm : m ≠ "initialize" ∧ m ≠ "notifications/initialized" ∧
      m ≠ "tools/list" ∧ m ≠ "tools/call") :
    (handleMessage cfg fs e ⟨some 1, "tools/list", p⟩).2.2 =
      [.response (some 1) (.toolCatalog
        ["deploy", "list", "invoke", "restart", "new", "config", "migrate", "docs"])] ∧
    (handleMessage cfg fs e ⟨idv, "notifications/initialized", p⟩).2.2 = [] ∧
    (∀ i : Int, (handleMessage cfg fs e ⟨some i, m, p⟩).2.2 =
      [.errorResponse (some i) (-32601) ("Method not found: " ++ m)]) ∧
    (handleMessage cfg fs e ⟨none, m, p⟩).2.2 = [] := by
  have h1 : (m == "initialize") = false := beq_eq_false_iff_ne.mpr hm.1
  have h2 : (m == "notifications/initialized") = false := beq_eq_false_iff_ne.mpr hm.2.1
  have h3 : (m == "tools/list") = false := beq_eq_false_iff_ne.mpr hm.2.2.1
  have h4 : (m == "tools/call") = false := beq_eq_false_iff_ne.mpr hm.2.2.2
  refine ⟨rfl, rfl, ?_, ?_⟩
  · intro i
    simp [handleMessage, h1, h2, h3, h4]
  · simp [handleMessage, h1, h2, h3, h4]

/-- Witness for C8: the catalog request, a notification, and an unknown
method with and without an id, at concrete inputs. -/
theorem c8_rpc_dispatch_witness :
    (handleMessage cfgW fsW eW ⟨some 1, "tools/list", none⟩).2.2 =
      [.response (some 1) (.toolCatalog
        ["deploy", "list", "invoke", "restart", "new", "config", "migrate", "docs"])] ∧
    (handleMessage cfgW fsW eW ⟨some 7, "notifications/initialized", none⟩).2.2 = [] ∧
    (handleMessage cfgW fsW eW ⟨some 5, "foo/bar", none⟩).2.2 =
      [.errorResponse (some 5) (-32601) "Method not found: foo/bar"] ∧
    (handleMessage cfgW fsW eW ⟨none, "foo/bar", none⟩).2.2 = [] := by
  have h := c8_rpc_dispatch cfgW fsW eW (some 7) "foo/bar" none (by decide)
  exact ⟨h.1, h.2.1, (h.2.2.1 5).trans rfl, h.2.2.2⟩

-- ─────────────────────────────────────────────────────────────
-- Shared lemmas about the migration loops
-- ─────────────────────────────────────────────────────────────

theorem requireServer_none (cfg : Config) (hs : truthy cfg.server = true)
    (hr : truthy cfg.remotePath = true) : requireServer cfg = none := by
  simp [requireServer, hs, hr]

theorem executedSqlFiles_map (s d : String) (ms : List String) :
    executedSqlFiles (ms.map (fun f => Command.sshPsqlFile s d f)) = ms := by
  induction ms with
  | nil => rfl
  | cons m rest ih => simpa [executedSqlFiles] using ih

theorem runMigrationsCli_all_ok (e : Executor) (s d : String)
    (ms : List String)
    (hok : ∀ f ∈ ms, e.runOk (.sshPsqlFile s d f) = true) :
    runMigrationsCli e s d ms = (ms.map (fun f => Command.sshPsqlFile s d f), .ok ()) := by
  induction ms with
  | nil => rfl
  | cons m rest ih =>
    have h1 := hok m (by simp)
    have h2 := ih fun f hf => hok f (by simp [hf])
    simp [runMigrationsCli, h1, h2]

theorem runMigrationsCli_stops (e : Executor) (s d bad : String) :
    ∀ pre post : List String,
    (∀ f ∈ pre, e.runOk (.sshPsqlFile s d f) = true) →
    e.runOk (.sshPsqlFile s d bad) = false →
    runMigrationsCli e s d (pre ++ bad :: post) =
      ((pre ++ [bad]).map (fun f => Command.sshPsqlFile s d f),
       .error (.migrationFailed bad)) := by
  intro pre
  induction pre with
  | nil => intro post _ hbad; simp [runMigrationsCli, hbad]
  | cons p pre ih =>
    intro post hpre hbad
    have hp := hpre p (by simp)
    have h2 := ih post (fun f hf => hpre f (by simp [hf])) hbad
    simp [runMigrationsCli, hp, h2]

theorem runMigrationsCli_start (e : Executor) (s d : String) :
    ∀ ms : List String, ∃ rest,
      ms = executedSqlFiles (runMigrationsCli e s d ms).1 ++ rest := by
  intro ms
  induction ms with
  | nil => exact ⟨[], rfl⟩
  | cons m rest ih =>
    by_cases hok : e.runOk (.sshPsqlFile s d m) = true
    · obtain ⟨r, hr⟩ := ih
      refine ⟨r, ?_⟩
      simpa [runMigrationsCli, hok, executedSqlFiles] using hr
    · have hok2 : e.runOk (.sshPsqlFile s d m) = false := by
        simpa using hok
      exact ⟨rest, by simp [runMigrationsCli, hok2, executedSqlFiles]⟩

theorem runMigrationsMcp_executed (e : Executor) (s d : String)
    (ms : List String) :
    (runMigrationsMcp e s d ms).1 = ms.map (fun f => Command.sshPsqlFile s d f) := by
  induction ms with
  | nil => rfl
  | cons m rest ih => simp [runMigrationsMcp, ih]

theorem executedSqlFiles_nil : executedSqlFiles [] = [] := rfl

theorem executedSqlFiles_append (t1 t2 : List Command) :
    executedSqlFiles (t1 ++ t2) = executedSqlFiles t1 ++ executedSqlFiles t2 :=
  List.filterMap_append t1 t2 _

theorem executedSqlFiles_psqlCons (s d f : String) (tr : List Command) :
    executedSqlFiles (Command.sshPsqlFile s d f :: tr) = f :: executedSqlFiles tr := rfl

theorem executedSqlFiles_stageConsCli (cfg : Config) (s : String)
    (tr : List Command) :
    executedSqlFiles (cliMigrationStage cfg s :: tr) = executedSqlFiles tr := rfl

theorem executedSqlFiles_queryConsCli (cfg : Config) (s : String)
    (tr : List Command) :
    executedSqlFiles (cliDbQuery cfg s :: tr) = executedSqlFiles tr := rfl

theorem executedSqlFiles_stageConsMcp (cfg : Config) (s : String)
    (tr : List Command) :
    executedSqlFiles (mcpMigrationStage cfg s :: tr) = executedSqlFiles tr := rfl

theorem executedSqlFiles_queryConsMcp (cfg : Config) (s : String)
    (tr : List Command) :
    executedSqlFiles (mcpDbQuery cfg s :: tr) = executedSqlFiles tr := rfl

-- ─────────────────────────────────────────────────────────────
-- C7 — migrate fail-fast on missing directory, no-op on empty
-- ─────────────────────────────────────────────────────────────

/-- Claim C7: with server and remotePath configured, Migrate on a missing
migrations directory fails with no remote interaction on both surfaces,
and on a directory with no .sql files it is a no-op success: an empty
trace (no staging sync, no container lookup, no execution) with a
non-error result. -/
theorem c7_migrate_missing_and_empty (cfg : Config) (fs : FileSystem)
    (e : Executor) (hs : truthy cfg.server = true)
    (hr : truthy cfg.remotePath = true) :
    (fs.pathExists cfg.migrationsPath = false →
      cmdMigrate cfg fs e = ([], .error (.localNotFound cfg.migrationsPath)) ∧
      mcpMigrate cfg fs e = ([], .migrationsFolderMissing cfg.migrationsPath)) ∧
    (fs.pathExists cfg.migrationsPath = true →
      (fs.readDir cfg.migrationsPath).filter (fun f => endsWithSql f) = [] →
      cmdMigrate cfg fs e = ([], .ok ()) ∧
      mcpMigrate cfg fs e = ([], .noMigrationFiles cfg.migrationsPath)) := by
  constructor
  · intro hdir
    constructor
    · simp [cmdMigrate, cmdMigrateBody, requireServer_none cfg hs hr, hdir]
    · simp [mcpMigrate, hs, hdir]
  · intro hdir hemp
    have hcli : cliMigrationFiles cfg fs = [] := by
      simp [cliMigrationFiles, hemp, sortFiles]
    have hmcp : mcpMigrationFiles cfg fs = [] := by
      simp [mcpMigrationFiles, hemp, sortFiles]
    constructor
    · simp [cmdMigrate, cmdMigrateBody, requireServer_none cfg hs hr, hdir, hcli]
    · simp [mcpMigrate, hs, hdir, hmcp]

/-- Filesystem for the C7 witness: no path exists. -/
def fsNoDir : FileSystem := ⟨fun _ => false, fun _ => [], fun _ => []⟩

/-- Filesystem for the C7 witness: the migrations directory exists but
holds no .sql file. -/
def fsNoSql : FileSystem := ⟨fun _ => true, fun _ => ["notes.txt"], fun _ => []⟩

/-- Witness for C7 at concrete filesystems. -/
theorem c7_migrate_missing_and_empty_witness :
    cmdMigrate cfgW fsNoDir eW = ([], .error (.localNotFound "./supabase/migrations")) ∧
    mcpMigrate cfgW fsNoDir eW = ([], .migrationsFolderMissing "./supabase/migrations") ∧
    cmdMigrate cfgW fsNoSql eW = ([], .ok ()) ∧
    mcpMigrate cfgW fsNoSql eW = ([], .noMigrationFiles "./supabase/migrations") := by
  have h1 := (c7_migrate_missing_and_empty cfgW fsNoDir eW rfl rfl).1 rfl
  have h2 := (c7_migrate_missing_and_empty cfgW fsNoSql eW rfl rfl).2 rfl (by decide)
  exact ⟨h1.1, h1.2, h2.1, h2.2⟩

-- ─────────────────────────────────────────────────────────────
-- C2 — migration selection and execution order
-- ─────────────────────────────────────────────────────────────

/-- Claim C2: both surfaces of Migrate select exactly the .sql files under
migrationsPath and execute them in lexicographic filename order: the
selected list is the sorted filter of the directory listing, it is sorted
and a permutation of that filter, the executed sequence is always a
prefix of it in order, and it is executed in full when the subprocesses
succeed and the database container resolves. -/
theorem c2_migrate_order (cfg : Config) (fs : FileSystem) (e : Executor)
    (hs : truthy cfg.server = true) (hr : truthy cfg.remotePath = true)
    (hdir : fs.pathExists cfg.migrationsPath = true) :
    cliMigrationFiles cfg fs =
      sortFiles ((fs.readDir cfg.migrationsPath).filter (fun f => endsWithSql f)) ∧
    mcpMigrationFiles cfg fs = cliMigrationFiles cfg fs ∧
    List.Sorted fileLe (cliMigrationFiles cfg fs) ∧
    List.Perm (cliMigrationFiles cfg fs)
      ((fs.readDir cfg.migrationsPath).filter (fun f => endsWithSql f)) ∧
    (executedSqlFiles (cmdMigrate cfg fs e).1).isPrefixOf (cliMigrationFiles cfg fs) = true ∧
    (executedSqlFiles (mcpMigrate cfg fs e).1).isPrefixOf (cliMigrationFiles cfg fs) = true ∧
    ((∀ cmd, e.runOk cmd = true) →
      truthy (runSyncResult e (cliDbQuery cfg (cfg.server.getD ""))) = true →
      executedSqlFiles (cmdMigrate cfg fs e).1 = cliMigrationFiles cfg fs) ∧
    (captureExecResult e (mcpDbQuery cfg (cfg.server.getD "")) ≠ "" →
      executedSqlFiles (mcpMigrate cfg fs e).1 = cliMigrationFiles cfg fs) := by
  refine ⟨rfl, rfl, sortFiles_sorted _, sortFiles_perm _, ?_, ?_, ?_, ?_⟩
  · by_cases hemp : cliMigrationFiles cfg fs = []
    · simp [cmdMigrate, cmdMigrateBody, requireServer_none cfg hs hr, hdir, hemp,
        executedSqlFiles_nil]
    · have hne : (cliMigrationFiles cfg fs).isEmpty = false := by
        simpa [List.isEmpty_iff] using hemp
      by_cases hstage : e.runOk (cliMigrationStage cfg (cfg.server.getD "")) = true
      · by_cases hdb :
          truthy (runSyncResult e (cliDbQuery cfg (cfg.server.getD ""))) = true
        · obtain ⟨rest, hrest⟩ := runMigrationsCli_start e (cfg.server.getD "")
            ((runSyncResult e (cliDbQuery cfg (cfg.server.getD ""))).getD "")
            (cliMigrationFiles cfg fs)
          refine List.isPrefixOf_iff_prefix.mpr ⟨rest, ?_⟩
          simp only [cmdMigrate, cmdMigrateBody, requireServer_none cfg hs hr, hdir,
            hne, hstage, hdb, Bool.not_true, Bool.not_false, if_false, if_true,
            executedSqlFiles_stageConsCli, executedSqlFiles_queryConsCli]
          exact hrest.symm
        · have hdb2 : truthy (runSyncResult e (cliDbQuery cfg (cfg.server.getD ""))) = false := by
            simpa using hdb
          simp [cmdMigrate, cmdMigrateBody, requireServer_none cfg hs hr, hdir, hne,
            hstage, hdb2, executedSqlFiles_stageConsCli, executedSqlFiles_queryConsCli,
            executedSqlFiles_nil, List.nil_prefix]
      · have hstage2 : e.runOk (cliMigrationStage cfg (cfg.server.getD "")) = false := by
          simpa using hstage
        simp [cmdMigrate, cmdMigrateBody, requireServer_none cfg hs hr, hdir, hne,
          hstage2, executedSqlFiles_stageConsCli, executedSqlFiles_nil, List.nil_prefix]
  · by_cases hemp : mcpMigrationFiles cfg fs = []
    · simp [mcpMigrate, hs, hdir, hemp, executedSqlFiles_nil]
    · have hne : (mcpMigrationFiles cfg fs).isEmpty = false := by
        simpa [List.isEmpty_iff] using hemp
      by_cases hdb : captureExecResult e (mcpDbQuery cfg (cfg.server.getD "")) = ""
      · simp [mcpMigrate, hs, hdir, hne, hdb, executedSqlFiles_stageConsMcp,
          executedSqlFiles_queryConsMcp, executedSqlFiles_nil, List.nil_prefix]
      · have hdb2 : (captureExecResult e (mcpDbQuery cfg (cfg.server.getD "")) == "") = false :=
          beq_eq_false_iff_ne.mpr hdb
        have hemp2 : ¬ sortFiles
            (List.filter (fun f => endsWithSql f) (fs.readDir cfg.migrationsPath)) = [] := hemp
        refine List.isPrefixOf_iff_prefix.mpr ⟨[], ?_⟩
        simp [mcpMigrate, hs, hdir, hemp2, hdb2, executedSqlFiles_stageConsMcp,
          executedSqlFiles_queryConsMcp, runMigrationsMcp_executed,
          executedSqlFiles_map, mcpMigrationFiles, cliMigrationFiles]
  · intro hok hdb
    have hrun := runMigrationsCli_all_ok e (cfg.server.getD "")
      ((runSyncResult e (cliDbQuery cfg (cfg.server.getD ""))).getD "")
      (cliMigrationFiles cfg fs) (fun f _ => hok _)
    by_cases hemp : cliMigrationFiles cfg fs = []
    · simp [cmdMigrate, cmdMigrateBody, requireServer_none cfg hs hr, hdir, hemp,
        executedSqlFiles_nil]
    · have hne : (cliMigrationFiles cfg fs).isEmpty = false := by
        simpa [List.isEmpty_iff] using hemp
      simp [cmdMigrate, cmdMigrateBody, requireServer_none cfg hs hr, hdir, hne,
        hok _, hdb, hrun, executedSqlFiles_stageConsCli, executedSqlFiles_queryConsCli,
        executedSqlFiles_map]
  · intro hdb
    have hdb2 : (captureExecResult e (mcpDbQuery cfg (cfg.server.getD "")) == "") = false :=
      beq_eq_false_iff_ne.mpr hdb
    by_cases hemp : mcpMigrationFiles cfg fs = []
    · have hemp2 : cliMigrationFiles cfg fs = [] := hemp
      simp [mcpMigrate, hs, hdir, hemp, executedSqlFiles_nil, hemp2]
    · have hemp2 : ¬ sortFiles
          (List.filter (fun f => endsWithSql f) (fs.readDir cfg.migrationsPath)) = [] := hemp
      simp [mcpMigrate, hs, hdir, hemp2, hdb2, executedSqlFiles_stageConsMcp,
        executedSqlFiles_queryConsMcp, runMigrationsMcp_executed,
        executedSqlFiles_map, mcpMigrationFiles, cliMigrationFiles]

/-- Witness for C2: with files listed out of order, both surfaces execute
001_a.sql before 002_b.sql and skip the non-.sql entry. -/
theorem c2_migrate_order_witness :
    executedSqlFiles (cmdMigrate cfgW fsW eW).1 = ["001_a.sql", "002_b.sql"] ∧
    executedSqlFiles (mcpMigrate cfgW fsW eW).1 = ["001_a.sql", "002_b.sql"] := by
  have h := c2_migrate_order cfgW fsW eW rfl rfl rfl
  exact ⟨(h.2.2.2.2.2.2.1 (fun cmd => rfl) rfl).trans rfl,
    (h.2.2.2.2.2.2.2 (by decide)).trans rfl⟩

-- ─────────────────────────────────────────────────────────────
-- C1 — missing configuration blocks remote operations
-- ─────────────────────────────────────────────────────────────

/-- Counterexample for C1 as stated: the configuration lacks remotePath,
yet the restart tool of the RPC surface does not fail with a
configuration error — it invokes the remote restart command. -/
theorem c1_remote_path_unchecked_counterexample :
    truthy cfgNoRemote.remotePath = false ∧
    (mcpRestart cfgNoRemote eW).1 = [Command.sshDockerRestart "root@h" "edge"] ∧
    (mcpRestart cfgNoRemote eW).2 = ToolOutcome.restarted "cid" :=
  ⟨rfl, rfl, rfl⟩

/-- Claim C1 (amended): when server or remotePath is missing, the four
remote-dependent CLI operations and the deploy and list tools fail with a
configuration error and an empty subprocess trace; the restart and
migrate tools check only server, so they fail that way (before any remote
command) whenever server is missing. -/
theorem c1_config_missing_blocks (cfg : Config) (fs : FileSystem)
    (e : Executor) (funcName : Option String) (noRestart : Bool)
    (args : ToolArgs)
    (h : truthy cfg.server = false ∨ truthy cfg.remotePath = false) :
    cliConfigMissing (cmdDeploy cfg fs e funcName noRestart) = true ∧
    cliConfigMissing (cmdList cfg fs e) = true ∧
    cliConfigMissing (cmdRestart cfg e) = true ∧
    cliConfigMissing (cmdMigrate cfg fs e) = true ∧
    mcpConfigMissing (mcpDeploy cfg fs e args) = true ∧
    mcpConfigMissing (mcpList cfg fs e) = true ∧
    (truthy cfg.server = false →
      mcpConfigMissing (mcpRestart cfg e) = true ∧
      mcpConfigMissing (mcpMigrate cfg fs e) = true) := by
  have hreq : ∃ f, requireServer cfg = some (.missingVar f) := by
    rcases h with h | h
    · exact ⟨"server", by simp [requireServer, h]⟩
    · by_cases hs : truthy cfg.server = true
      · exact ⟨"remotePath", by simp [requireServer, hs, h]⟩
      · have hs2 : truthy cfg.server = false := by simpa using hs
        exact ⟨"server", by simp [requireServer, hs2]⟩
  obtain ⟨f, hf⟩ := hreq
  have hguard : (!truthy cfg.server || !truthy cfg.remotePath) = true := by
    rcases h with h | h <;> simp [h]
  refine ⟨?_, ?_, ?_, ?_, ?_, ?_, ?_⟩
  · simp [cmdDeploy, hf, cliConfigMissing]
  · simp [cmdList, hf, cliConfigMissing]
  · simp [cmdRestart, hf, cliConfigMissing]
  · simp [cmdMigrate, hf, cliConfigMissing]
  · simp [mcpDeploy, hguard, mcpConfigMissing]
  · simp [mcpList, hguard, mcpConfigMissing]
  · intro hs
    exact ⟨by simp [mcpRestart, hs, mcpConfigMissing],
      by simp [mcpMigrate, hs, mcpConfigMissing]⟩

/-- Witness for C1 at a configuration with server absent. -/
theorem c1_config_missing_blocks_witness :
    cliConfigMissing (cmdDeploy cfgNoServer fsW eW none false) = true ∧
    cliConfigMissing (cmdMigrate cfgNoServer fsW eW) = true ∧
    mcpConfigMissing (mcpRestart cfgNoServer eW) = true ∧
    mcpConfigMissing (mcpMigrate cfgNoServer fsW eW) = true := by
  have h := c1_config_missing_blocks cfgNoServer fsW eW none false {} (Or.inl rfl)
  exact ⟨h.1, h.2.2.2.1, (h.2.2.2.2.2.2 rfl).1, (h.2.2.2.2.2.2 rfl).2⟩

-- ─────────────────────────────────────────────────────────────
-- C3 — deploy restart suppression
-- ─────────────────────────────────────────────────────────────

/-- The sync transfer `cmdDeploy` issues for a given optional unit name:
the full-tree mirror when the name is falsy, otherwise the additive
single-unit transfer (shsu.mjs lines 103-120). -/
def cliSyncCommand (cfg : Config) (funcName : Option String) : Command :=
  if !truthy funcName then
    .rsync true ["*.test.ts", "*.spec.ts"] (cfg.localPath ++ "/")
      (cfg.server.getD "" ++ ":" ++ cfg.remotePath.getD "" ++ "/")
  else
    .rsync false [] (joinPath cfg.localPath (funcName.getD "") ++ "/")
      (cfg.server.getD "" ++ ":" ++ cfg.remotePath.getD "" ++ "/" ++
        funcName.getD "" ++ "/")

/-- Counterexample for C3 as stated: on the RPC surface the rsync sync
step fails (its captured result is absent), yet the restart command is
still invoked. -/
theorem c3_sync_failure_restart_counterexample :
    eFail.captured (Command.rsync true ["*.test.ts", "*.spec.ts"]
      ("./supabase/functions" ++ "/") ("root@h" ++ ":" ++ "/srv/fn" ++ "/")) = none ∧
    ((mcpDeploy cfgW fsW eFail {}).1.any isRestartCommand) = true :=
  ⟨rfl, rfl⟩

/-- Claim C3 (amended): on the CLI surface a failing sync step prevents
the restart, and noRestart prevents the restart; on the RPC surface
noRestart prevents the restart, but a failing transfer does not: with
noRestart unset and no unit name, the trace always contains the restart
command, whatever the executor returns for the transfer. -/
theorem c3_deploy_restart_policy (cfg : Config) (fs : FileSystem)
    (e : Executor) (funcName : Option String) (noRestart : Bool)
    (args : ToolArgs) :
    (noRestart = true →
      restartFree (cmdDeploy cfg fs e funcName noRestart).1 = true) ∧
    (e.runOk (cliSyncCommand cfg funcName) = false →
      restartFree (cmdDeploy cfg fs e funcName noRestart).1 = true) ∧
    (args.noRestart.getD false = true →
      restartFree (mcpDeploy cfg fs e args).1 = true) ∧
    (args.noRestart.getD false = false → truthy args.name = false →
      truthy cfg.server = true → truthy cfg.remotePath = true →
      ((mcpDeploy cfg fs e args).1.any isRestartCommand) = true) := by
  refine ⟨?_, ?_, ?_, ?_⟩
  · intro hnr
    subst hnr
    cases hreq : requireServer cfg with
    | some err => simp [cmdDeploy, hreq, restartFree]
    | none =>
      simp only [cmdDeploy, hreq]
      by_cases hfn : truthy funcName = true
      · simp [cmdDeployBody, deployRestartStep, hfn, restartFree, isRestartCommand]
        split_ifs <;> simp [restartFree, isRestartCommand]
      · have hfn2 : truthy funcName = false := by simpa using hfn
        simp [cmdDeployBody, deployRestartStep, hfn2, restartFree, isRestartCommand]
        split_ifs <;> simp [restartFree, isRestartCommand]
  · intro hfail
    cases hreq : requireServer cfg with
    | some err => simp [cmdDeploy, hreq, restartFree]
    | none =>
      simp only [cmdDeploy, hreq]
      by_cases hfn : truthy funcName = true
      · rw [cliSyncCommand, if_neg (by simp [hfn])] at hfail
        by_cases hex : fs.pathExists (joinPath cfg.localPath (funcName.getD "")) = true
        · simp [cmdDeployBody, hfn, hex, hfail, restartFree, isRestartCommand]
        · have hex2 : fs.pathExists (joinPath cfg.localPath (funcName.getD "")) = false := by
            simpa using hex
          simp [cmdDeployBody, hfn, hex2, restartFree]
      · have hfn2 : truthy funcName = false := by simpa using hfn
        rw [cliSyncCommand, if_pos (by simp [hfn2])] at hfail
        simp [cmdDeployBody, hfn2, hfail, restartFree, isRestartCommand]
  · intro hnr
    by_cases hguard : (!truthy cfg.server || !truthy cfg.remotePath) = true
    · simp [mcpDeploy, hguard, restartFree]
    · have hguard2 : (!truthy cfg.server || !truthy cfg.remotePath) = false := by
        simpa using hguard
      by_cases hfn : truthy args.name = true
      · by_cases hex : fs.pathExists (joinPath cfg.localPath (args.name.getD "")) = true
        · simp [mcpDeploy, hguard2, hfn, hex, mcpDeployRestart, hnr, restartFree,
            isRestartCommand]
        · have hex2 : fs.pathExists (joinPath cfg.localPath (args.name.getD "")) = false := by
            simpa using hex
          simp [mcpDeploy, hguard2, hfn, hex2, restartFree]
      · have hfn2 : truthy args.name = false := by simpa using hfn
        simp [mcpDeploy, hguard2, hfn2, mcpDeployRestart, hnr, restartFree,
          isRestartCommand]
  · intro hnr hfn hs hr
    simp [mcpDeploy, hs, hr, hfn, mcpDeployRestart, hnr, isRestartCommand]

/-- Arguments with noRestart set, for the C3 witness. -/
def argsNR : ToolArgs := { noRestart := some true }

/-- Witness for C3: a failing CLI sync yields no restart, noRestart is
honored on both surfaces, and the failing RPC sync still restarts. -/
theorem c3_deploy_restart_policy_witness :
    restartFree (cmdDeploy cfgW fsW eFail none false).1 = true ∧
    restartFree (cmdDeploy cfgW fsW eW none true).1 = true ∧
    restartFree (mcpDeploy cfgW fsW eW argsNR).1 = true ∧
    ((mcpDeploy cfgW fsW eFail {}).1.any isRestartCommand) = true := by
  have h1 := c3_deploy_restart_policy cfgW fsW eFail none false {}
  have h2 := c3_deploy_restart_policy cfgW fsW eW none true argsNR
  exact ⟨h1.2.1 rfl, h2.1 rfl, h2.2.2.1 rfl, h1.2.2.2 rfl rfl rfl rfl⟩

-- ─────────────────────────────────────────────────────────────
-- C4 — the two migrate surfaces differ exactly in failure policy
-- ─────────────────────────────────────────────────────────────

/-- Claim C4: given the same migration list with a first failing file, the
CLI surface executes exactly the files up to and including that file and
aborts with an error, while the RPC surface executes every file and
reports success with collected output; the file selection, the staging
sync command and the container lookup command of the two surfaces are
identical. -/
theorem c4_migrate_failure_policies (cfg : Config) (fs : FileSystem)
    (e : Executor) (pre post : List String) (bad db : String)
    (hs : truthy cfg.server = true) (hr : truthy cfg.remotePath = true)
    (hdir : fs.pathExists cfg.migrationsPath = true)
    (hms : cliMigrationFiles cfg fs = pre ++ bad :: post)
    (hstage : e.runOk (cliMigrationStage cfg (cfg.server.getD "")) = true)
    (hcap : e.captured (cliDbQuery cfg (cfg.server.getD "")) = some db)
    (hdb : db ≠ "")
    (hpre : ∀ f ∈ pre, e.runOk (.sshPsqlFile (cfg.server.getD "") db f) = true)
    (hbad : e.runOk (.sshPsqlFile (cfg.server.getD "") db bad) = false) :
    executedSqlFiles (cmdMigrate cfg fs e).1 = pre ++ [bad] ∧
    (cmdMigrate cfg fs e).2 = .error (.migrationFailed bad) ∧
    executedSqlFiles (mcpMigrate cfg fs e).1 = pre ++ bad :: post ∧
    (∃ out, (mcpMigrate cfg fs e).2 = .migrated out) ∧
    mcpMigrationFiles cfg fs = cliMigrationFiles cfg fs ∧
    mcpMigrationStage cfg (cfg.server.getD "") = cliMigrationStage cfg (cfg.server.getD "") ∧
    mcpDbQuery cfg (cfg.server.getD "") = cliDbQuery cfg (cfg.server.getD "") := by
  have hdbeq : (db == "") = false := beq_eq_false_iff_ne.mpr hdb
  have hne : (cliMigrationFiles cfg fs).isEmpty = false := by
    simp [hms]
  have hrun := runMigrationsCli_stops e (cfg.server.getD "") db bad pre post hpre hbad
  have hcli : cmdMigrate cfg fs e =
      (cliMigrationStage cfg (cfg.server.getD "") ::
        cliDbQuery cfg (cfg.server.getD "") ::
        ((pre ++ [bad]).map fun f => Command.sshPsqlFile (cfg.server.getD "") db f),
       .error (.migrationFailed bad)) := by
    simp [cmdMigrate, cmdMigrateBody, requireServer_none cfg hs hr, hdir, hne,
      hstage, runSyncResult, hcap, truthy, hdbeq, hms, hrun]
  have hcapm : captureExecResult e (mcpDbQuery cfg (cfg.server.getD "")) = db := by
    have : mcpDbQuery cfg (cfg.server.getD "") = cliDbQuery cfg (cfg.server.getD "") := rfl
    rw [this]
    simp [captureExecResult, hcap]
  have hmsm : mcpMigrationFiles cfg fs = pre ++ bad :: post := hms
  have hnem : (mcpMigrationFiles cfg fs).isEmpty = false := hne
  refine ⟨?_, ?_, ?_, ?_, rfl, rfl, rfl⟩
  · rw [hcli]
    simp [executedSqlFiles_stageConsCli, executedSqlFiles_queryConsCli,
      executedSqlFiles_map, executedSqlFiles_append, executedSqlFiles_psqlCons,
      executedSqlFiles_nil]
  · rw [hcli]
  · simp [mcpMigrate, hs, hdir, hnem, hcapm, hdbeq, hmsm,
      executedSqlFiles_stageConsMcp, executedSqlFiles_queryConsMcp,
      runMigrationsMcp_executed, executedSqlFiles_map, executedSqlFiles_append,
      executedSqlFiles_psqlCons, executedSqlFiles_nil]
  · refine ⟨captureExecResult e (mcpMigrationStage cfg (cfg.server.getD "")) ++ "\n" ++
      (runMigrationsMcp e (cfg.server.getD "") db (mcpMigrationFiles cfg fs)).2 ++
      "\nAll migrations applied.", ?_⟩
    simp [mcpMigrate, hs, hdir, hnem, hcapm, hdbeq]

/-- Executor for the C4 witness: every capture succeeds with output
"cid", and streaming execution fails exactly on the file 002_b.sql. -/
def eMid : Executor :=
  ⟨fun cmd =>
     match cmd with
     | .sshPsqlFile _ _ f => !(f == "002_b.sql")
     | _ => true,
   fun _ => some "cid", fun _ => "boom"⟩

/-- Filesystem for the C4 witness: three migration files, listed out of
order. -/
def fsThree : FileSystem :=
  ⟨fun _ => true, fun _ => ["003_c.sql", "001_a.sql", "002_b.sql"], fun _ => []⟩

/-- Witness for C4: with 002_b.sql failing, the CLI surface stops after
002_b.sql while the RPC surface runs all three files. -/
theorem c4_migrate_failure_policies_witness :
    executedSqlFiles (cmdMigrate cfgW fsThree eMid).1 = ["001_a.sql", "002_b.sql"] ∧
    (cmdMigrate cfgW fsThree eMid).2 = .error (.migrationFailed "002_b.sql") ∧
    executedSqlFiles (mcpMigrate cfgW fsThree eMid).1 =
      ["001_a.sql", "002_b.sql", "003_c.sql"] := by
  have h := c4_migrate_failure_policies cfgW fsThree eMid ["001_a.sql"] ["003_c.sql"]
    "002_b.sql" "cid" rfl rfl rfl rfl rfl rfl (by decide) (by decide) rfl
  exact ⟨h.1, h.2.1, h.2.2.1⟩

-- ─────────────────────────────────────────────────────────────
-- C5 — sync scope, exclusions, and deletion behavior
-- ─────────────────────────────────────────────────────────────

/-- Claim C5: without a unit, both surfaces start with a mirror transfer
of the whole tree (deletion on, excluding *.test.ts and *.spec.ts); with
a unit whose local directory is missing, both fail with a local-not-found
result and an empty trace; with a unit that exists, the only transfer in
either trace is the additive one into the remote path of that unit, and no
command of either trace requests deletion. -/
theorem c5_sync_scope (cfg : Config) (fs : FileSystem) (e : Executor)
    (noRestart : Bool) (argsNone argsU : ToolArgs) (u : String)
    (hs : truthy cfg.server = true) (hr : truthy cfg.remotePath = true)
    (hu : u ≠ "") (hnone : argsNone.name = none) (hname : argsU.name = some u) :
    (cmdDeploy cfg fs e none noRestart).1.head? =
      some (Command.rsync true ["*.test.ts", "*.spec.ts"] (cfg.localPath ++ "/")
        (cfg.server.getD "" ++ ":" ++ cfg.remotePath.getD "" ++ "/")) ∧
    (mcpDeploy cfg fs e argsNone).1.head? =
      some (Command.rsync true ["*.test.ts", "*.spec.ts"] (cfg.localPath ++ "/")
        (cfg.server.getD "" ++ ":" ++ cfg.remotePath.getD "" ++ "/")) ∧
    (fs.pathExists (joinPath cfg.localPath u) = false →
      cmdDeploy cfg fs e (some u) noRestart =
        ([], .error (.localNotFound (joinPath cfg.localPath u))) ∧
      mcpDeploy cfg fs e argsU = ([], .functionNotFound (joinPath cfg.localPath u))) ∧
    (fs.pathExists (joinPath cfg.localPath u) = true →
      rsyncsOf (cmdDeploy cfg fs e (some u) noRestart).1 =
        [Command.rsync false [] (joinPath cfg.localPath u ++ "/")
          (cfg.server.getD "" ++ ":" ++ cfg.remotePath.getD "" ++ "/" ++ u ++ "/")] ∧
      rsyncsOf (mcpDeploy cfg fs e argsU).1 =
        [Command.rsync false [] (joinPath cfg.localPath u ++ "/")
          (cfg.server.getD "" ++ ":" ++ cfg.remotePath.getD "" ++ "/" ++ u ++ "/")] ∧
      ((cmdDeploy cfg fs e (some u) noRestart).1.all fun c => !rsyncDeletes c) = true ∧
      ((mcpDeploy cfg fs e argsU).1.all fun c => !rsyncDeletes c) = true) := by
  have htu : truthy (some u) = true := by simp [truthy, hu]
  have hguard : (!truthy cfg.server || !truthy cfg.remotePath) = false := by
    simp [hs, hr]
  have htn : truthy none = false := rfl
  refine ⟨?_, ?_, ?_, ?_⟩
  · simp only [cmdDeploy, requireServer_none cfg hs hr]
    simp [cmdDeployBody, deployRestartStep, htn]
    split_ifs <;> simp
  · simp [mcpDeploy, hguard, hnone, htn, mcpDeployRestart]
    split_ifs <;> simp
  · intro hex
    constructor
    · simp only [cmdDeploy, requireServer_none cfg hs hr]
      simp [cmdDeployBody, htu, hex]
    · simp [mcpDeploy, hguard, hname, htu, hex]
  · intro hex
    refine ⟨?_, ?_, ?_, ?_⟩
    · simp only [cmdDeploy, requireServer_none cfg hs hr]
      simp [cmdDeployBody, htu, hex, deployRestartStep]
      split_ifs <;> simp [rsyncsOf]
    · simp [mcpDeploy, hguard, hname, htu, hex, mcpDeployRestart]
      split_ifs <;> simp [rsyncsOf]
    · simp only [cmdDeploy, requireServer_none cfg hs hr]
      simp [cmdDeployBody, htu, hex, deployRestartStep]
      split_ifs <;> simp [rsyncDeletes]
    · simp [mcpDeploy, hguard, hname, htu, hex, mcpDeployRestart]
      split_ifs <;> simp [rsyncDeletes]

/-- Arguments naming the unit hello, for the C5 witness. -/
def argsHello : ToolArgs := { name := some "hello" }

/-- Witness for C5 at concrete inputs, on an existing and on a missing
local unit directory. -/
theorem c5_sync_scope_witness :
    (cmdDeploy cfgW fsW eW none false).1.head? =
      some (Command.rsync true ["*.test.ts", "*.spec.ts"] "./supabase/functions/"
        "root@h:/srv/fn/") ∧
    rsyncsOf (cmdDeploy cfgW fsW eW (some "hello") false).1 =
      [Command.rsync false [] "./supabase/functions/hello/" "root@h:/srv/fn/hello/"] ∧
    ((mcpDeploy cfgW fsW eW argsHello).1.all fun c => !rsyncDeletes c) = true ∧
    cmdDeploy cfgW fsNoDir eW (some "hello") false =
      ([], .error (.localNotFound "./supabase/functions/hello")) ∧
    mcpDeploy cfgW fsNoDir eW argsHello =
      ([], .functionNotFound "./supabase/functions/hello") := by
  have h1 := c5_sync_scope cfgW fsW eW false {} argsHello "hello" rfl rfl
    (by decide) rfl rfl
  have h2 := c5_sync_scope cfgW fsNoDir eW false {} argsHello "hello" rfl rfl
    (by decide) rfl rfl
  exact ⟨h1.1, (h1.2.2.2 rfl).1, (h1.2.2.2 rfl).2.2.2,
    (h2.2.2.1 rfl).1, (h2.2.2.1 rfl).2⟩

-- ─────────────────────────────────────────────────────────────
-- C9 — scaffold: no overwrite, fixed starter file, purely local
-- ─────────────────────────────────────────────────────────────

/-- Claim C9: scaffolding a unit whose directory already exists fails with
an already-exists error and performs no filesystem write and no
subprocess; scaffolding a fresh name creates exactly the unit directory
and its fixed starter file, again with no subprocess, on both surfaces. -/
theorem c9_scaffold (cfg : Config) (fs : FileSystem) (args : ToolArgs)
    (u : String) (hu : u ≠ "") (hname : args.name = some u) :
    (fs.pathExists (joinPath cfg.localPath u) = true →
      cmdNew cfg fs (some u) = ([], [], .error (.alreadyExists u)) ∧
      mcpNew cfg fs args = ([], [], .alreadyExists u)) ∧
    (fs.pathExists (joinPath cfg.localPath u) = false →
      cmdNew cfg fs (some u) =
        ([.mkdirRecursive (joinPath cfg.localPath u),
          .writeFile (joinPath (joinPath cfg.localPath u) "index.ts") starterTemplateCli],
         [], .ok ()) ∧
      mcpNew cfg fs args =
        ([.mkdirRecursive (joinPath cfg.localPath u),
          .writeFile (joinPath (joinPath cfg.localPath u) "index.ts") starterTemplateMcp],
         [], .created (joinPath cfg.localPath u))) := by
  have htu : truthy (some u) = true := by simp [truthy, hu]
  constructor
  · intro hex
    exact ⟨by simp [cmdNew, htu, hex], by simp [mcpNew, hname, htu, hex]⟩
  · intro hex
    exact ⟨by simp [cmdNew, htu, hex], by simp [mcpNew, hname, htu, hex]⟩

/-- Witness for C9 on an existing and on a fresh unit name. -/
theorem c9_scaffold_witness :
    cmdNew cfgW fsW (some "hello") = ([], [], .error (.alreadyExists "hello")) ∧
    mcpNew cfgW fsW argsHello = ([], [], .alreadyExists "hello") ∧
    cmdNew cfgW fsNoDir (some "hello") =
      ([.mkdirRecursive "./supabase/functions/hello",
        .writeFile "./supabase/functions/hello/index.ts" starterTemplateCli],
       [], .ok ()) ∧
    mcpNew cfgW fsNoDir argsHello =
      ([.mkdirRecursive "./supabase/functions/hello",
        .writeFile "./supabase/functions/hello/index.ts" starterTemplateMcp],
       [], .created "./supabase/functions/hello") := by
  have h1 := (c9_scaffold cfgW fsW argsHello "hello" (by decide) rfl).1 rfl
  have h2 := (c9_scaffold cfgW fsNoDir argsHello "hello" (by decide) rfl).2 rfl
  exact ⟨h1.1, h1.2, h2.1, h2.2⟩

end Shsu
